import Mathlib

/-!
Shallow embedding of `src/main.rs` of the first-actix-crud repository:
an axum HTTP service exposing CRUD handlers over a Postgres `tasks`
table via sqlx.

Modelling decisions, each traceable to the source:
* `TaskRow`, `CreateTaskReq`, `UpdateTaskReq` mirror the Rust structs.
  `i32` values are embedded as `Int` (the claims do not involve
  overflow); `Option<i32>` as `Option Int`.  serde deserializes both an
  omitted field and an explicit JSON `null` into `None` for an
  `Option` field, so a single `Option` constructor `none` faithfully
  covers both transport-level cases.
* The database table is a `Db`: a list of rows plus the serial
  counter `nextId` for the auto-incrementing `task_id` primary key.
  The SQL statements in the source are embedded as pure functions on
  `Db` (`selectAllOrdered`, `loadTaskById`, `insertRow`, `updateRow`,
  `deleteRow`).
* sqlx queries can fail; each handler threads a `Plan` assigning to
  the n-th executed query either `none` (succeeds) or `some e` (the
  driver fails with error text `e`).  `runQuery` consumes the plan.
* Responses are embedded exactly as in Rust: a pair of status code
  (`StatusCode` constants as `Nat`) and serialized body `String`.
  serde_json's `Map` is a `BTreeMap`, so `json!` object keys are
  serialized in sorted key order; the body strings below spell the
  keys in that order.  `renderJsonString` reproduces serde_json's
  string escaping.
-/

/-- Rust struct `TaskRow { task_id: i32, name: String, priority: Option<i32> }`. -/
structure TaskRow where
  task_id : Int
  name : String
  priority : Option Int
deriving Repr, DecidableEq

/-- Rust struct `CreateTaskReq { name: String, priority: Option<i32> }`. -/
structure CreateTaskReq where
  name : String
  priority : Option Int
deriving Repr, DecidableEq

/-- Rust struct `UpdateTaskReq { name: Option<String>, priority: Option<i32> }`. -/
structure UpdateTaskReq where
  name : Option String
  priority : Option Int
deriving Repr, DecidableEq

/-- The `tasks` table: its rows plus the serial sequence backing the
auto-incrementing `task_id` column. -/
structure Db where
  rows : List TaskRow
  nextId : Int
deriving Repr, DecidableEq

/-- Well-formedness of the serial counter: every stored id was
assigned by a past value of the sequence, hence is below `nextId`. -/
def Db.WF (db : Db) : Prop :=
  ∀ r ∈ db.rows, r.task_id < db.nextId

/- HTTP status codes used by the handlers (axum `StatusCode` constants). -/

def statusOK : Nat := 200
def statusNotFound : Nat := 404
def statusInternalServerError : Nat := 500

/- serde_json string escaping (`\"`, `\\`, `\b`, `\t`, `\n`, `\f`,
`\r`, `\u00XY` for remaining control characters). -/

def hexDigit (n : Nat) : Char :=
  if n < 10 then Char.ofNat (48 + n) else Char.ofNat (87 + n)

def escapeJsonChar (c : Char) : String :=
  if c = '"' then "\\\""
  else if c = '\\' then "\\\\"
  else if c = '\x08' then "\\b"
  else if c = '\t' then "\\t"
  else if c = '\n' then "\\n"
  else if c = '\x0c' then "\\f"
  else if c = '\r' then "\\r"
  else if c.toNat < 32 then
    "\\u00" ++ String.singleton (hexDigit (c.toNat / 16))
      ++ String.singleton (hexDigit (c.toNat % 16))
  else String.singleton c

/-- A JSON string literal as serde_json serializes it. -/
def renderJsonString (s : String) : String :=
  "\"" ++ String.join (s.toList.map escapeJsonChar) ++ "\""

/-- serde_json serialization of an `Option<i32>` value (`null` or the number). -/
def renderOptInt : Option Int → String
  | none => "null"
  | some n => toString n

/-- serde_json serialization of a `TaskRow` (`serde_json::to_value`
puts the fields of a struct in a `BTreeMap`, so the keys come out in
sorted order: `name`, `priority`, `task_id`). -/
def renderTaskRow (r : TaskRow) : String :=
  "\x7b\"name\":" ++ renderJsonString r.name
    ++ ",\"priority\":" ++ renderOptInt r.priority
    ++ ",\"task_id\":" ++ toString r.task_id ++ "\x7d"

/-- serde_json serialization of a `Vec<TaskRow>`. -/
def renderTaskRows (rs : List TaskRow) : String :=
  "[" ++ String.intercalate "," (rs.map renderTaskRow) ++ "]"

/- The SQL statements of `main.rs`, embedded as pure functions on `Db`. -/

/-- `SELECT * FROM tasks WHERE task_id = $1` with `fetch_optional`:
the first (with the primary key, the unique) matching row, if any.
Embeds `load_task_by_id` minus the query plumbing. -/
def loadTaskById (db : Db) (task_id : Int) : Option TaskRow :=
  db.rows.find? (fun r => r.task_id == task_id)

/-- `SELECT * FROM tasks ORDER BY task_id` with `fetch_all`: all rows,
sorted ascending by `task_id` (insertion sort models the ordering
demanded of the store). -/
def selectAllOrdered (db : Db) : List TaskRow :=
  List.insertionSort (fun a b => a.task_id ≤ b.task_id) db.rows

/-- `INSERT INTO tasks (name, priority) VALUES ($1, $2) RETURNING task_id`:
appends a row with the next serial id and returns that id. -/
def insertRow (name : String) (priority : Option Int) (db : Db) : Int × Db :=
  (db.nextId,
   { rows := db.rows ++ [{ task_id := db.nextId, name := name, priority := priority }],
     nextId := db.nextId + 1 })

/-- `UPDATE tasks SET name = $2, priority = $3 WHERE task_id = $1`. -/
def updateRow (task_id : Int) (name : String) (priority : Option Int) (db : Db) : Db :=
  { db with rows := db.rows.map (fun r =>
      if r.task_id == task_id then { r with name := name, priority := priority } else r) }

/-- `DELETE FROM tasks WHERE task_id = $1`: keeps the rows whose id differs. -/
def deleteRow (task_id : Int) (db : Db) : Db :=
  { db with rows := db.rows.filter (fun r => !(r.task_id == task_id)) }

/- Query execution with injected driver failures. -/

/-- A failure plan: what the driver does on the n-th query a handler
executes (`none` = succeed, `some e` = fail with error text `e`). -/
def Plan := Nat → Option String

/-- The all-queries-succeed plan. -/
def noFailPlan : Plan := fun _ => none

/-- Every query fails with error text `e`. -/
def failPlan (e : String) : Plan := fun _ => some e

/-- The first query succeeds, every later one fails with `e`
(exercises the write of `update_task` failing after a successful read). -/
def failAfterFirstPlan (e : String) : Plan := fun n => if n = 0 then none else some e

/-- Handler-side database state: the table plus how many queries this
request has executed so far. -/
def DbState := Db × Nat

/-- Execute one query `q` against the state under failure plan `plan`. -/
def runQuery {α : Type} (plan : Plan) (q : Db → α × Db) : DbState → Except String (α × DbState) :=
  fun st =>
    match plan st.2 with
    | some e => Except.error e
    | none =>
      let out := q st.1
      Except.ok (out.1, (out.2, st.2 + 1))

/- Response builders of `main.rs`. -/

/-- `map_pg_error`: any sqlx error becomes HTTP 500 with
`json!({"success": false, "message": <error text>})` (serialized with
sorted keys: `message` before `success`). -/
def map_pg_error (e : String) : Nat × String :=
  (statusInternalServerError,
   "\x7b\"message\":" ++ renderJsonString e ++ ",\"success\":false\x7d")

/-- `build_not_found_error`: HTTP 404 with
`json!({"message": format!("Task {task_id} not found")})` — the one
error body with no `success` field. -/
def build_not_found_error (task_id : Int) : Nat × String :=
  (statusNotFound,
   "\x7b\"message\":" ++ renderJsonString ("Task " ++ toString task_id ++ " not found") ++ "\x7d")

/-- `map_success`: `{"success": true}` when there is no payload,
otherwise `{"success": true, "data": <payload>}` (serialized with
sorted keys: `data` before `success`).  The payload argument is the
serde_json serialization of the Rust `data` value. -/
def map_success (status_code : Nat) (data : Option String) : Nat × String :=
  match data with
  | none => (status_code, "\x7b\"success\":true\x7d")
  | some d => (status_code, "\x7b\"data\":" ++ d ++ ",\"success\":true\x7d")

/-- A handler outcome: the Rust
`Result<(StatusCode, String), (StatusCode, String)>` paired with the
database state after the handler ran (the store is external mutable
state in the source; here it is threaded explicitly). -/
def HandlerOut := Except (Nat × String) (Nat × String) × DbState

/- The five route handlers of `main.rs`. -/

/-- Handler `get_tasks` (GET `/tasks`): `SELECT * FROM tasks ORDER BY
task_id`, errors mapped inline to the same 500 body as `map_pg_error`,
success body `json!({"success": true, "data": rows}).to_string() + "\n"`. -/
def get_tasks (plan : Plan) (st : DbState) : HandlerOut :=
  match runQuery plan (fun db => (selectAllOrdered db, db)) st with
  | Except.error e => (Except.error (map_pg_error e), st)
  | Except.ok (rows, st') =>
    (Except.ok (statusOK,
      "\x7b\"data\":" ++ renderTaskRows rows ++ ",\"success\":true\x7d" ++ "\n"), st')

/-- Handler `get_task` (GET `/tasks/:task_id`): `load_task_by_id`,
driver error via `map_pg_error`, missing row via
`build_not_found_error`, found row via `map_success(OK, task)`. -/
def get_task (plan : Plan) (st : DbState) (task_id : Int) : HandlerOut :=
  match runQuery plan (fun db => (loadTaskById db task_id, db)) st with
  | Except.error e => (Except.error (map_pg_error e), st)
  | Except.ok (task, st') =>
    match task with
    | none => (Except.error (build_not_found_error task_id), st')
    | some t => (Except.ok (map_success statusOK (some (renderTaskRow t))), st')

/-- serde_json serialization of `CreateTaskRow { task_id: i32 }`. -/
def renderCreateTaskRow (task_id : Int) : String :=
  "\x7b\"task_id\":" ++ toString task_id ++ "\x7d"

/-- Handler `create_task` (POST `/tasks`): insert returning the new id,
driver error via `map_pg_error`, success via
`map_success(OK, Some(CreateTaskRow { task_id }))`. -/
def create_task (plan : Plan) (st : DbState) (task : CreateTaskReq) : HandlerOut :=
  match runQuery plan (insertRow task.name task.priority) st with
  | Except.error e => (Except.error (map_pg_error e), st)
  | Except.ok (newId, st') =>
    (Except.ok (map_success statusOK (some (renderCreateTaskRow newId))), st')

/-- Handler `update_task` (PATCH `/tasks/:task_id`): load the original
row (driver error → 500, missing → 404), merge
`task.name.unwrap_or(original.name)` and
`task.priority.or(original.priority)`, write the merged pair back
(driver error → 500), success body `json!({"success": true})`. -/
def update_task (plan : Plan) (st : DbState) (task_id : Int) (task : UpdateTaskReq) : HandlerOut :=
  match runQuery plan (fun db => (loadTaskById db task_id, db)) st with
  | Except.error e => (Except.error (map_pg_error e), st)
  | Except.ok (original_task, st') =>
    match original_task with
    | none => (Except.error (build_not_found_error task_id), st')
    | some original =>
      let task_name := task.name.getD original.name
      let task_priority := task.priority.or original.priority
      match runQuery plan (fun db => ((), updateRow task_id task_name task_priority db)) st' with
      | Except.error e => (Except.error (map_pg_error e), st')
      | Except.ok (_, st'') =>
        (Except.ok (statusOK, "\x7b\"success\":true\x7d"), st'')

/-- Handler `delete_task` (DELETE `/tasks/:task_id`): unconditional
delete, driver error via `map_pg_error`, success via
`map_success(OK, None)`. -/
def delete_task (plan : Plan) (st : DbState) (task_id : Int) : HandlerOut :=
  match runQuery plan (fun db => ((), deleteRow task_id db)) st with
  | Except.error e => (Except.error (map_pg_error e), st)
  | Except.ok (_, st') => (Except.ok (map_success statusOK none), st')

/- Helper lemmas shared by the claims. -/

/-- Looking up the id just assigned by an insert finds exactly the
inserted row, provided the serial counter is well-formed. -/
theorem loadTaskById_insertRow (db : Db) (hWF : db.WF) (name : String) (priority : Option Int) :
    loadTaskById (insertRow name priority db).2 db.nextId =
      some { task_id := db.nextId, name := name, priority := priority } := by
  unfold loadTaskById insertRow
  rw [List.find?_append]
  have h1 : db.rows.find? (fun r => r.task_id == db.nextId) = none := by
    rw [List.find?_eq_none]
    intro x hx
    simp only [beq_iff_eq]
    exact Int.ne_of_lt (hWF x hx)
  rw [h1]
  simp [List.find?]

/-- After a delete by id, a lookup of that id finds nothing. -/
theorem loadTaskById_deleteRow (db : Db) (task_id : Int) :
    loadTaskById (deleteRow task_id db) task_id = none := by
  unfold loadTaskById deleteRow
  rw [List.find?_eq_none]
  intro x hx
  have hmem := List.mem_filter.1 hx
  simp only [Bool.not_eq_true'] at hmem
  simp [hmem.2]

/-- `ORDER BY task_id` produces a list sorted by `task_id`. -/
theorem sorted_selectAllOrdered (db : Db) :
    List.Sorted (fun a b : TaskRow => a.task_id ≤ b.task_id) (selectAllOrdered db) := by
  haveI : IsTotal TaskRow (fun a b => a.task_id ≤ b.task_id) :=
    ⟨fun a b => Int.le_total a.task_id b.task_id⟩
  haveI : IsTrans TaskRow (fun a b => a.task_id ≤ b.task_id) :=
    ⟨fun _ _ _ hab hbc => le_trans hab hbc⟩
  exact List.sorted_insertionSort _ db.rows

/-- `ORDER BY task_id` returns exactly the stored rows (a permutation). -/
theorem perm_selectAllOrdered (db : Db) :
    (selectAllOrdered db).Perm db.rows :=
  List.perm_insertionSort _ db.rows

/- Claim theorems. -/

/-- C1: `update(task_id, name?, priority?)` performs a partial merge on
every existing task: a supplied `name` replaces the stored name,
otherwise the stored name is kept; a supplied `priority` replaces the
stored priority, otherwise (an explicit null deserializes to `none`,
identically to omission) the stored priority is kept, so a stored
priority can never be cleared via update; the merged pair is written
back by `updateRow`. -/
theorem C1_update_partial_merge (db : Db) (n : Nat) (task_id : Int) (task : UpdateTaskReq)
    (original : TaskRow) (h : loadTaskById db task_id = some original) :
    update_task noFailPlan (db, n) task_id task =
      (Except.ok (statusOK, "\x7b\"success\":true\x7d"),
       (updateRow task_id (task.name.getD original.name) (task.priority.or original.priority) db,
        n + 2))
    ∧ (task.name = none → task.name.getD original.name = original.name)
    ∧ (∀ nm, task.name = some nm → task.name.getD original.name = nm)
    ∧ (task.priority = none → task.priority.or original.priority = original.priority)
    ∧ (∀ p, task.priority = some p → task.priority.or original.priority = some p)
    ∧ (original.priority.isSome = true → (task.priority.or original.priority).isSome = true) := by
  refine ⟨?_, ?_, ?_, ?_, ?_, ?_⟩
  · simp [update_task, runQuery, noFailPlan, h]
  · intro hn; simp [hn]
  · intro nm hn; simp [hn]
  · intro hp; simp [hp, Option.or]
  · intro p hp; simp [hp, Option.or]
  · intro hp
    cases hpr : task.priority with
    | none => simpa [Option.or, hpr] using hp
    | some p => simp [Option.or, hpr]

/-- C1 witness: a concrete task with stored priority, updated with a
new name and no priority: the name is replaced, the priority kept. -/
theorem C1_update_partial_merge_witness :
    update_task noFailPlan ({ rows := [{ task_id := 1, name := "old", priority := some 2 }], nextId := 2 }, 0) 1 { name := some "new", priority := none } =
      (Except.ok (statusOK, "\x7b\"success\":true\x7d"),
       (updateRow 1 ((some "new").getD "old") (Option.or none (some 2)) { rows := [{ task_id := 1, name := "old", priority := some 2 }], nextId := 2 },
        0 + 2)) :=
  (C1_update_partial_merge
    { rows := [{ task_id := 1, name := "old", priority := some 2 }], nextId := 2 }
    0 1 { name := some "new", priority := none }
    { task_id := 1, name := "old", priority := some 2 } (by decide)).1

/-- C2: for a `task_id` with no matching row, `get_task` and
`update_task` both return HTTP 404 with the identical body built by
`build_not_found_error`: a JSON object whose only field is
`message: "Task <id> not found"` — no `success` field, unlike the
500 body of `map_pg_error`. -/
theorem C2_shared_not_found_contract (db : Db) (n : Nat) (task_id : Int) (task : UpdateTaskReq)
    (h : loadTaskById db task_id = none) :
    get_task noFailPlan (db, n) task_id =
      (Except.error (build_not_found_error task_id), (db, n + 1))
    ∧ update_task noFailPlan (db, n) task_id task =
      (Except.error (build_not_found_error task_id), (db, n + 1))
    ∧ build_not_found_error task_id =
      (statusNotFound,
       "\x7b\"message\":" ++ renderJsonString ("Task " ++ toString task_id ++ " not found")
         ++ "\x7d") := by
  refine ⟨?_, ?_, rfl⟩
  · simp [get_task, runQuery, noFailPlan, h]
  · simp [update_task, runQuery, noFailPlan, h]

/-- C2 witness: GET and PATCH on id 999 against an empty table both
yield exactly 404 with body `\x7b"message":"Task 999 not found"\x7d`. -/
theorem C2_shared_not_found_contract_witness :
    get_task noFailPlan ({ rows := [], nextId := 1 }, 0) 999 =
      (Except.error (404, "\x7b\"message\":\"Task 999 not found\"\x7d"), ({ rows := [], nextId := 1 }, 0 + 1))
    ∧ update_task noFailPlan ({ rows := [], nextId := 1 }, 0) 999 { name := none, priority := none } =
      (Except.error (404, "\x7b\"message\":\"Task 999 not found\"\x7d"), ({ rows := [], nextId := 1 }, 0 + 1)) := by
  have h := C2_shared_not_found_contract { rows := [], nextId := 1 } 0 999
    { name := none, priority := none } (by decide)
  exact ⟨h.1.trans rfl, h.2.1.trans rfl⟩

/-- C3: for every well-formed store and every request `(name, priority)`,
`create_task` succeeds with HTTP 200 and `data.task_id` = the assigned
serial id, and a subsequent `get_task` of that id returns HTTP 200 with
a task whose `name` and `priority` equal the inputs (round-trip). -/
theorem C3_create_get_round_trip (db : Db) (n : Nat) (task : CreateTaskReq) (hWF : db.WF) :
    (create_task noFailPlan (db, n) task).1 =
      Except.ok (statusOK,
        "\x7b\"data\":" ++ renderCreateTaskRow db.nextId ++ ",\"success\":true\x7d")
    ∧ loadTaskById (create_task noFailPlan (db, n) task).2.1 db.nextId =
      some { task_id := db.nextId, name := task.name, priority := task.priority }
    ∧ (get_task noFailPlan (create_task noFailPlan (db, n) task).2 db.nextId).1 =
      Except.ok (statusOK,
        "\x7b\"data\":"
          ++ renderTaskRow { task_id := db.nextId, name := task.name, priority := task.priority }
          ++ ",\"success\":true\x7d") := by
  have hload : loadTaskById (create_task noFailPlan (db, n) task).2.1 db.nextId =
      some { task_id := db.nextId, name := task.name, priority := task.priority } := by
    have := loadTaskById_insertRow db hWF task.name task.priority
    simpa [create_task, runQuery, noFailPlan] using this
  refine ⟨?_, hload, ?_⟩
  · simp [create_task, runQuery, noFailPlan, map_success, insertRow]
  · simp [get_task, runQuery, noFailPlan, hload, map_success]

/-- C3 witness: creating `("write spec", 2)` in an empty store yields
`task_id` 1 and GET `/tasks/1` returns that name and priority. -/
theorem C3_create_get_round_trip_witness :
    (create_task noFailPlan ({ rows := [], nextId := 1 }, 0) { name := "write spec", priority := some 2 }).1 =
      Except.ok (200, "\x7b\"data\":\x7b\"task_id\":1\x7d,\"success\":true\x7d")
    ∧ (get_task noFailPlan (create_task noFailPlan ({ rows := [], nextId := 1 }, 0) { name := "write spec", priority := some 2 }).2 1).1 =
      Except.ok (200, "\x7b\"data\":\x7b\"name\":\"write spec\",\"priority\":2,\"task_id\":1\x7d,\"success\":true\x7d") := by
  have h := C3_create_get_round_trip { rows := [], nextId := 1 } 0
    { name := "write spec", priority := some 2 } (by intro r hr; simp at hr)
  exact ⟨h.1.trans rfl, h.2.2.trans rfl⟩

/-- C4: `delete_task` performs no existence check: for every store
state and every `task_id` — matching row or not — a successful store
execution deletes by id and returns HTTP 200 with body
`\x7b"success":true\x7d` and no data payload. -/
theorem C4_delete_unconditional (db : Db) (n : Nat) (task_id : Int) :
    delete_task noFailPlan (db, n) task_id =
      (Except.ok (statusOK, "\x7b\"success\":true\x7d"), (deleteRow task_id db, n + 1)) := by
  simp [delete_task, runQuery, noFailPlan, map_success]

/-- C5: for every store state and every `task_id`, `delete_task`
followed by `get_task` of the same id yields the 404 not-found
outcome, whether or not the task existed before the delete. -/
theorem C5_delete_then_get_not_found (db : Db) (n : Nat) (task_id : Int) :
    (get_task noFailPlan (delete_task noFailPlan (db, n) task_id).2 task_id).1 =
      Except.error (build_not_found_error task_id) := by
  have hdel : (delete_task noFailPlan (db, n) task_id).2 = (deleteRow task_id db, n + 1) := by
    simp [delete_task, runQuery, noFailPlan, map_success]
  rw [hdel]
  simp [get_task, runQuery, noFailPlan, loadTaskById_deleteRow]

/-- C6: `get_tasks` returns all stored tasks (a permutation of the
table) sorted in non-decreasing `task_id` order for any insertion
sequence, and on store success always answers HTTP 200 with
`\x7b"data":[...],"success":true\x7d` — including `data: []` for an
empty table. -/
theorem C6_list_sorted_all (db : Db) (n : Nat) :
    (get_tasks noFailPlan (db, n)).1 =
      Except.ok (statusOK,
        "\x7b\"data\":" ++ renderTaskRows (selectAllOrdered db) ++ ",\"success\":true\x7d" ++ "\n")
    ∧ List.Sorted (fun a b : TaskRow => a.task_id ≤ b.task_id) (selectAllOrdered db)
    ∧ (selectAllOrdered db).Perm db.rows
    ∧ (get_tasks noFailPlan ({ rows := [], nextId := 1 }, n)).1 =
      Except.ok (200, "\x7b\"data\":[],\"success\":true\x7d\n") :=
  ⟨rfl, sorted_selectAllOrdered db, perm_selectAllOrdered db, rfl⟩

/-- C7: under a failing store, every handler performs no retry or
recovery and returns HTTP 500 with
`\x7b"message":<driver error text>,"success":false\x7d`, the driver's
error string surfaced verbatim (JSON-encoded); this also holds for
`update_task` when only the write (its second query) fails. -/
theorem C7_store_failure_500_verbatim (e : String) (db : Db) (n : Nat) (task_id : Int)
    (creq : CreateTaskReq) (ureq : UpdateTaskReq) :
    (get_tasks (failPlan e) (db, n)).1 = Except.error (map_pg_error e)
    ∧ (get_task (failPlan e) (db, n) task_id).1 = Except.error (map_pg_error e)
    ∧ (create_task (failPlan e) (db, n) creq).1 = Except.error (map_pg_error e)
    ∧ (update_task (failPlan e) (db, n) task_id ureq).1 = Except.error (map_pg_error e)
    ∧ (delete_task (failPlan e) (db, n) task_id).1 = Except.error (map_pg_error e)
    ∧ map_pg_error e =
      (statusInternalServerError,
       "\x7b\"message\":" ++ renderJsonString e ++ ",\"success\":false\x7d")
    ∧ (∀ original, loadTaskById db task_id = some original →
        (update_task (failAfterFirstPlan e) (db, 0) task_id ureq).1 =
          Except.error (map_pg_error e)) := by
  refine ⟨rfl, rfl, rfl, rfl, rfl, rfl, ?_⟩
  intro original h
  simp [update_task, runQuery, failAfterFirstPlan, h]

/-- C7 witness: a concrete update whose read succeeds and whose write
fails with "boom" surfaces 500 with that message. -/
theorem C7_store_failure_500_verbatim_witness :
    (update_task (failAfterFirstPlan "boom") ({ rows := [{ task_id := 1, name := "a", priority := none }], nextId := 2 }, 0) 1 { name := none, priority := none }).1 =
      Except.error (map_pg_error "boom") :=
  (C7_store_failure_500_verbatim "boom"
    { rows := [{ task_id := 1, name := "a", priority := none }], nextId := 2 } 0 1
    { name := "x", priority := none } { name := none, priority := none }).2.2.2.2.2.2
    { task_id := 1, name := "a", priority := none } (by decide)

/-- C8: when the lookup finds no row, `update_task` answers the 404
not-found response after exactly one query (the read) with the table
unchanged — no write is issued on the not-found path. -/
theorem C8_update_not_found_no_write (db : Db) (n : Nat) (task_id : Int) (task : UpdateTaskReq)
    (h : loadTaskById db task_id = none) :
    update_task noFailPlan (db, n) task_id task =
      (Except.error (build_not_found_error task_id), (db, n + 1)) := by
  simp [update_task, runQuery, noFailPlan, h]

/-- C8 witness: updating id 5 in an empty store returns 404 with the
store still empty and one query executed. -/
theorem C8_update_not_found_no_write_witness :
    update_task noFailPlan ({ rows := [], nextId := 1 }, 0) 5 { name := some "x", priority := some 9 } =
      (Except.error (build_not_found_error 5), ({ rows := [], nextId := 1 }, 0 + 1)) :=
  C8_update_not_found_no_write { rows := [], nextId := 1 } 0 5
    { name := some "x", priority := some 9 } (by decide)

/-- C9 counterexample: a found `get_task` success body ends in the
character `\x7d`, not in a newline — refuting, at a concrete store,
the claim that every success response of get appends `"\n"`. -/
theorem C9_counterexample :
    (get_task noFailPlan ({ rows := [{ task_id := 1, name := "a", priority := none }], nextId := 2 }, 0) 1).1 =
      Except.ok (200, "\x7b\"data\":\x7b\"name\":\"a\",\"priority\":null,\"task_id\":1\x7d,\"success\":true\x7d")
    ∧ ("\x7b\"data\":\x7b\"name\":\"a\",\"priority\":null,\"task_id\":1\x7d,\"success\":true\x7d").data.getLast? = some '\x7d'
    ∧ ('\x7d' : Char) ≠ '\n' :=
  ⟨rfl, rfl, by decide⟩

/-- C9 amended: `get_tasks` success responses append a trailing
newline to the serialized body; `get_task` success responses do not —
their body ends in `\x7d` (the source builds them via `map_success`,
which appends nothing). -/
theorem C9_amended_newline_only_list (db : Db) (n : Nat) (task_id : Int) (t : TaskRow)
    (h : loadTaskById db task_id = some t) :
    (get_tasks noFailPlan (db, n)).1 =
      Except.ok (statusOK,
        ("\x7b\"data\":" ++ renderTaskRows (selectAllOrdered db) ++ ",\"success\":true\x7d") ++ "\n")
    ∧ (("\x7b\"data\":" ++ renderTaskRows (selectAllOrdered db) ++ ",\"success\":true\x7d") ++ "\n").data.getLast? = some '\n'
    ∧ (get_task noFailPlan (db, n) task_id).1 =
      Except.ok (statusOK, "\x7b\"data\":" ++ renderTaskRow t ++ ",\"success\":true\x7d")
    ∧ ("\x7b\"data\":" ++ renderTaskRow t ++ ",\"success\":true\x7d").data.getLast? = some '\x7d' := by
  refine ⟨rfl, ?_, ?_, ?_⟩
  · rw [String.data_append]
    exact List.getLast?_concat _
  · simp [get_task, runQuery, noFailPlan, h, map_success]
  · rw [String.data_append, List.getLast?_append]
    rfl

/-- C9 amended witness: at a concrete one-task store, the list body
ends in a newline and the get body does not. -/
theorem C9_amended_newline_only_list_witness :
    (get_tasks noFailPlan ({ rows := [{ task_id := 1, name := "a", priority := none }], nextId := 2 }, 0)).1 =
      Except.ok (200, "\x7b\"data\":[\x7b\"name\":\"a\",\"priority\":null,\"task_id\":1\x7d],\"success\":true\x7d\n")
    ∧ (get_task noFailPlan ({ rows := [{ task_id := 1, name := "a", priority := none }], nextId := 2 }, 0) 1).1 =
      Except.ok (200, "\x7b\"data\":\x7b\"name\":\"a\",\"priority\":null,\"task_id\":1\x7d,\"success\":true\x7d") := by
  have h := C9_amended_newline_only_list
    { rows := [{ task_id := 1, name := "a", priority := none }], nextId := 2 } 0 1
    { task_id := 1, name := "a", priority := none } (by decide)
  exact ⟨h.1.trans rfl, h.2.2.1.trans rfl⟩

/-- C10: the service applies no domain validation to ids: for every
integer `task_id`, zero and negatives included, `get_task` and
`update_task` answer the 404 envelope with the id interpolated into
the message whenever no row matches, and `delete_task` answers success
for every id against every store — no id is rejected by the service. -/
theorem C10_no_id_validation (db : Db) (n : Nat) (task_id : Int) (task : UpdateTaskReq)
    (h : loadTaskById db task_id = none) :
    (get_task noFailPlan (db, n) task_id).1 = Except.error (build_not_found_error task_id)
    ∧ (update_task noFailPlan (db, n) task_id task).1 = Except.error (build_not_found_error task_id)
    ∧ (∀ db' : Db, ∀ m : Nat, (delete_task noFailPlan (db', m) task_id).1 =
        Except.ok (statusOK, "\x7b\"success\":true\x7d"))
    ∧ build_not_found_error task_id =
      (statusNotFound,
       "\x7b\"message\":" ++ renderJsonString ("Task " ++ toString task_id ++ " not found")
         ++ "\x7d") := by
  refine ⟨?_, ?_, ?_, rfl⟩
  · simp [get_task, runQuery, noFailPlan, h]
  · simp [update_task, runQuery, noFailPlan, h]
  · intro db' m
    simp [delete_task, runQuery, noFailPlan, map_success]

/-- C10 witness: ids -7 and 0 are not rejected: get answers 404 with
the id in the message, delete answers success. -/
theorem C10_no_id_validation_witness :
    (get_task noFailPlan ({ rows := [], nextId := 1 }, 0) (-7)).1 =
      Except.error (404, "\x7b\"message\":\"Task -7 not found\"\x7d")
    ∧ (get_task noFailPlan ({ rows := [], nextId := 1 }, 0) 0).1 =
      Except.error (404, "\x7b\"message\":\"Task 0 not found\"\x7d")
    ∧ (delete_task noFailPlan ({ rows := [], nextId := 1 }, 0) (-7)).1 =
      Except.ok (200, "\x7b\"success\":true\x7d") := by
  have hneg := C10_no_id_validation { rows := [], nextId := 1 } 0 (-7)
    { name := none, priority := none } (by decide)
  have hzero := C10_no_id_validation { rows := [], nextId := 1 } 0 0
    { name := none, priority := none } (by decide)
  exact ⟨hneg.1.trans rfl, hzero.1.trans rfl, (hneg.2.2.1 { rows := [], nextId := 1 } 0).trans rfl⟩
